import Mathlib

/-!
Shallow embedding of the WebGPU capability checker and GPU utility
functions of the vanity-eth repository.

The stateful `WebGPUCapabilityChecker` class is embedded as pure
functions over an explicit `Capabilities` record.  The ambient browser
environment (secure context flag, user agent, `navigator.gpu`, the
adapter/device/shader requests) is an explicit `Env` value; each
asynchronous, fallible external call is a three-way outcome (throws /
empty / success).  JavaScript numbers are modelled as `Nat` for the
device limits (WebGPU limits are non-negative integers) and as `ℚ`
where the source computes fractional values; an absent (`undefined`)
field is `Option.none`, and JavaScript truthiness of a numeric field
(`!x`, `x || fb`) is `none` or a zero value.
-/

namespace VanityEth

/-- The performance tiers occurring in the source
(`getPerformanceTier` returns one of these five strings). -/
inductive Tier where
  | high
  | medium
  | low
  | unknown
  | unavailable
deriving DecidableEq, Repr

/-- The nine named numeric limits copied from `device.limits` in
`checkDevice`; `none` models a JavaScript `undefined` entry.  The
fresh record starts with the empty object `{}`, i.e. all `none`. -/
structure Limits where
  maxComputeWorkgroupStorageSize : Option Nat := none
  maxComputeInvocationsPerWorkgroup : Option Nat := none
  maxComputeWorkgroupSizeX : Option Nat := none
  maxComputeWorkgroupSizeY : Option Nat := none
  maxComputeWorkgroupSizeZ : Option Nat := none
  maxComputeWorkgroupsPerDimension : Option Nat := none
  maxStorageBufferBindingSize : Option Nat := none
  maxBufferSize : Option Nat := none
  maxUniformBufferBindingSize : Option Nat := none
deriving DecidableEq, Repr

/-- `adapter.info` fields as reported by the environment; `none`
models an absent field, which the source replaces by `"Unknown"`. -/
structure AdapterInfo where
  vendor : Option String := none
  architecture : Option String := none
  device : Option String := none
  description : Option String := none
deriving DecidableEq, Repr

/-- A GPU adapter handle together with its reported info. -/
structure Adapter where
  info : AdapterInfo := {}
deriving DecidableEq, Repr

/-- A GPU device handle with its reported feature set and limits. -/
structure Device where
  features : List String := []
  limits : Limits := {}
deriving DecidableEq, Repr

/-- The `performanceInfo` mapping; the constructor starts it as the
empty object `{}`, so every field begins absent (`none`). -/
structure PerfInfo where
  vendor : Option String := none
  architecture : Option String := none
  device : Option String := none
  description : Option String := none
  browser : Option String := none
deriving DecidableEq, Repr

/-- The capability record accumulated by the checker
(`this.capabilities` in the source). -/
structure Capabilities where
  available : Bool := false
  supported : Bool := false
  adapter : Option Adapter := none
  device : Option Device := none
  reasons : List String := []
  features : List String := []
  limits : Limits := {}
  performanceInfo : PerfInfo := {}
  errors : List String := []
deriving DecidableEq, Repr

/-- The reset value the constructor and `runFullCheck` install. -/
def initialCapabilities : Capabilities := {}

/-- Outcome of `navigator.gpu.requestAdapter()`: an exception, a null
adapter, or an adapter handle. -/
inductive AdapterReq where
  | throws (msg : String)
  | nullAdapter
  | ok (a : Adapter)
deriving DecidableEq, Repr

/-- Outcome of `adapter.requestDevice()`: an exception, a null device,
or a device handle. -/
inductive DeviceReq where
  | throws (msg : String)
  | nullDevice
  | ok (d : Device)
deriving DecidableEq, Repr

/-- Outcome of the compute-shader smoke test body
(`createShaderModule` + `createComputePipeline`): an exception or
success. -/
inductive ShaderReq where
  | throws (msg : String)
  | ok
deriving DecidableEq, Repr

/-- The ambient browser environment consumed by the checker. -/
structure Env where
  isSecureContext : Bool
  userAgent : String
  hasGpu : Bool
  requestAdapter : AdapterReq
  requestDevice : DeviceReq
  shaderTest : ShaderReq
deriving DecidableEq, Repr

/-! ### String helpers for the user-agent inspection

`String.includes` and `String.match(/Pat\/(\d+)/)` from the source,
modelled over `List Char`. -/

/-- `l` begins with the pattern `pat`. -/
def listStartsWith : List Char → List Char → Bool
  | _, [] => true
  | [], _ :: _ => false
  | c :: cs, p :: ps => c = p && listStartsWith cs ps

/-- JavaScript `String.prototype.includes`: `pat` occurs as a
contiguous substring of `l`. -/
def containsSub : List Char → List Char → Bool
  | [], pat => pat.isEmpty
  | c :: cs, pat => listStartsWith (c :: cs) pat || containsSub cs pat

/-- ASCII digit test (the `\d` class of the source's regexes). -/
def isDigitChar (c : Char) : Bool := '0' ≤ c && c ≤ '9'

/-- Numeric value of a digit string (`parseInt` on the capture of
`(\d+)`, which is always a non-empty digit run). -/
def digitsVal (l : List Char) : Nat :=
  l.foldl (fun a c => 10 * a + (c.toNat - '0'.toNat)) 0

/-- `ua.match(/pat(\d+)/)` followed by `parseInt(match[1])`: scan for
the leftmost occurrence of the literal `pat` that is immediately
followed by at least one digit and return the value of the maximal
digit run there; `none` when the regex does not match. -/
def findVersion : List Char → List Char → Option Nat
  | [], _ => none
  | c :: cs, pat =>
    if listStartsWith (c :: cs) pat then
      match ((c :: cs).drop pat.length).takeWhile isDigitChar with
      | [] => findVersion cs pat
      | ds => some (digitsVal ds)
    else findVersion cs pat

/-! ### The capability checks (`webgpu-checker` class methods) -/

/-- The repeated `reasons.push(...); errors.push(...)` failure pattern. -/
def pushDiagnostic (caps : Capabilities) (reason err : String) : Capabilities :=
  { caps with reasons := caps.reasons ++ [reason], errors := caps.errors ++ [err] }

/-- `checkAvailability`: clears `reasons`/`errors`, then tests
`navigator.gpu`. -/
def checkAvailability (env : Env) (caps : Capabilities) : Capabilities :=
  let caps := { caps with reasons := [], errors := [] }
  if !env.hasGpu then
    pushDiagnostic caps "WebGPU API not available - navigator.gpu is undefined" "BROWSER_NOT_SUPPORTED"
  else
    { caps with available := true }

/-- JavaScript `s || fb` on an optional string: `undefined` and the
empty string are falsy. -/
def jsOrStr (v : Option String) (fb : String) : String :=
  match v with
  | none => fb
  | some s => if s = "" then fb else s

/-- `checkAdapter`: requests an adapter; on success sets `supported`
and replaces `performanceInfo` with the four adapter-info fields. -/
def checkAdapter (env : Env) (caps : Capabilities) : Capabilities :=
  match env.requestAdapter with
  | .throws msg =>
      pushDiagnostic caps s!"Failed to get GPU adapter: {msg}" "ADAPTER_ERROR"
  | .nullAdapter =>
      pushDiagnostic caps "No GPU adapter found - GPU may be disabled or unsupported" "NO_ADAPTER"
  | .ok adapter =>
      { caps with
          adapter := some adapter,
          supported := true,
          performanceInfo :=
            { vendor := some (jsOrStr adapter.info.vendor "Unknown"),
              architecture := some (jsOrStr adapter.info.architecture "Unknown"),
              device := some (jsOrStr adapter.info.device "Unknown"),
              description := some (jsOrStr adapter.info.description "Unknown"),
              browser := none } }

/-- `checkDevice`: no-op without an adapter; otherwise requests a
device and on success copies its features and nine limits. -/
def checkDevice (env : Env) (caps : Capabilities) : Capabilities :=
  match caps.adapter with
  | none => caps
  | some _ =>
    match env.requestDevice with
    | .throws msg =>
        pushDiagnostic caps s!"Failed to create GPU device: {msg}" "DEVICE_ERROR"
    | .nullDevice =>
        pushDiagnostic caps "Failed to create GPU device" "DEVICE_CREATION_FAILED"
    | .ok device =>
        { caps with
            device := some device,
            features := device.features,
            limits := device.limits }

/-- `testComputeShader`: no-op without a device; otherwise compiles
the trivial shader and builds a pipeline, recording success as an
informational reason and failure as a diagnostic plus error code. -/
def testComputeShader (env : Env) (caps : Capabilities) : Capabilities :=
  match caps.device with
  | none => caps
  | some _ =>
    match env.shaderTest with
    | .ok =>
        { caps with reasons := caps.reasons ++ ["Basic compute shader compilation successful"] }
    | .throws msg =>
        pushDiagnostic caps s!"Compute shader test failed: {msg}" "SHADER_COMPILATION_FAILED"

/-- `checkSecureContext`: returns `false` and records the diagnostic
when `window.isSecureContext` is unset. -/
def checkSecureContext (env : Env) (caps : Capabilities) : Bool × Capabilities :=
  if !env.isSecureContext then
    (false,
     pushDiagnostic caps "WebGPU requires a secure context (HTTPS, localhost, or file://)" "INSECURE_CONTEXT")
  else
    (true, caps)

/-- `checkBrowserCompatibility`: recognizes Chrome / Firefox / Safari /
Edge (in that priority order, by substring test), parses the version
from the family's pattern (`0` on parse failure), records a too-old or
unsupported-browser diagnostic, and finally stores the browser label
in `performanceInfo.browser`. -/
def checkBrowserCompatibility (userAgent : String) (caps : Capabilities) : Capabilities :=
  let ua := userAgent.toList
  let step : Capabilities × String :=
    if containsSub ua "Chrome".toList then
      let version := (findVersion ua "Chrome/".toList).getD 0
      (if version < 113 then
         pushDiagnostic caps s!"Chrome version {version} is too old. WebGPU requires Chrome 113+"
           "BROWSER_VERSION_TOO_OLD"
       else caps,
       s!"Chrome {version}")
    else if containsSub ua "Firefox".toList then
      let version := (findVersion ua "Firefox/".toList).getD 0
      (if version < 113 then
         pushDiagnostic caps s!"Firefox version {version} is too old. WebGPU requires Firefox 113+"
           "BROWSER_VERSION_TOO_OLD"
       else caps,
       s!"Firefox {version}")
    else if containsSub ua "Safari".toList then
      let version := (findVersion ua "Version/".toList).getD 0
      (if (version : ℚ) < 16.4 then
         pushDiagnostic caps s!"Safari version {version} is too old. WebGPU requires Safari 16.4+"
           "BROWSER_VERSION_TOO_OLD"
       else caps,
       s!"Safari {version}")
    else if containsSub ua "Edge".toList then
      let version := (findVersion ua "Edg/".toList).getD 0
      (if version < 113 then
         pushDiagnostic caps s!"Edge version {version} is too old. WebGPU requires Edge 113+"
           "BROWSER_VERSION_TOO_OLD"
       else caps,
       s!"Edge {version}")
    else
      (pushDiagnostic caps "Unsupported browser for WebGPU" "UNSUPPORTED_BROWSER",
       "Unknown browser")
  { step.1 with performanceInfo := { step.1.performanceInfo with browser := some step.2 } }

/-- `runFullCheck`: reset, then secure context, browser compatibility
(non-blocking), availability, adapter, device, shader test, with the
source's early returns. -/
def runFullCheck (env : Env) : Capabilities :=
  let caps := initialCapabilities
  match checkSecureContext env caps with
  | (false, caps) => caps
  | (true, caps) =>
    let caps := checkBrowserCompatibility env.userAgent caps
    let caps := checkAvailability env caps
    if !caps.available then caps
    else
      let caps := checkAdapter env caps
      if !caps.supported then caps
      else
        let caps := checkDevice env caps
        if caps.device.isNone then caps
        else testComputeShader env caps

/-! ### Tier classification -/

/-- JavaScript truthiness of an optional numeric limit: `undefined`
and `0` are falsy. -/
def truthyNat (v : Option Nat) : Bool :=
  match v with
  | none => false
  | some n => !(n == 0)

/-- `limit >= c` in JavaScript: comparing `undefined` is false. -/
def limGe (l : Option Nat) (c : Nat) : Bool :=
  match l with
  | none => false
  | some n => c ≤ n

/-- `getPerformanceTier`: `unavailable` without support, `unknown`
without a (truthy) invocations-per-workgroup limit, then the high and
medium threshold rules, else `low`. -/
def getPerformanceTier (caps : Capabilities) : Tier :=
  if !caps.supported then .unavailable
  else
    let limits := caps.limits
    if !truthyNat limits.maxComputeInvocationsPerWorkgroup then .unknown
    else if limGe limits.maxComputeInvocationsPerWorkgroup 1024 &&
            limGe limits.maxComputeWorkgroupSizeX 1024 &&
            limGe limits.maxStorageBufferBindingSize 134217728 then .high
    else if limGe limits.maxComputeInvocationsPerWorkgroup 512 &&
            limGe limits.maxComputeWorkgroupSizeX 512 &&
            limGe limits.maxStorageBufferBindingSize 67108864 then .medium
    else .low

/-! ### Parameter optimization and gain estimation (`gpu-utils.js`) -/

/-- Result record of `getOptimizedGPUParameters`; fields absent from a
given return statement are `none`. -/
structure GPUParams where
  useGPU : Bool
  reason : Option String := none
  performanceTier : Option Tier := none
  optimizedNB_ITER : Nat
  optimizedNB_THREAD : Nat
  gpuInfo : Option PerfInfo := none
  limits : Option Limits := none
deriving DecidableEq, Repr

/-- JavaScript `n || fb` on an optional number: `undefined` (also the
`NaN` produced by dividing `undefined`) and `0` are falsy. -/
def jsOrNat (v : Option Nat) (fb : Nat) : Nat :=
  match v with
  | none => fb
  | some n => if n = 0 then fb else n

/-- `getOptimizedGPUParameters`, as the pure function of the
capability record produced by its internal `runFullCheck` call: the
unsupported fallback, else per-tier `Math.min` of the cap and the
limit-derived value. -/
def getOptimizedGPUParameters (capabilities : Capabilities) : GPUParams :=
  if !capabilities.supported then
    { useGPU := false,
      reason := some "WebGPU not supported",
      optimizedNB_ITER := 256,
      optimizedNB_THREAD := 64 }
  else
    let limits := capabilities.limits
    let performanceTier := getPerformanceTier capabilities
    let pair : Nat × Nat :=
      if performanceTier = .high then
        (min 512 (jsOrNat (limits.maxComputeWorkgroupsPerDimension.map (fun n => n / 2)) 512),
         min 256 (jsOrNat limits.maxComputeWorkgroupSizeX 256))
      else if performanceTier = .medium then
        (min 384 (jsOrNat (limits.maxComputeWorkgroupsPerDimension.map (fun n => n / 3)) 384),
         min 128 (jsOrNat limits.maxComputeWorkgroupSizeX 128))
      else if performanceTier = .low then
        (min 256 (jsOrNat (limits.maxComputeWorkgroupsPerDimension.map (fun n => n / 4)) 256),
         min 64 (jsOrNat limits.maxComputeWorkgroupSizeX 64))
      else (256, 64)
    { useGPU := true,
      performanceTier := some performanceTier,
      optimizedNB_ITER := pair.1,
      optimizedNB_THREAD := pair.2,
      gpuInfo := some capabilities.performanceInfo,
      limits := some limits }

/-- The `gains` lookup table of `estimatePerformanceGain` (four keys;
an unlisted tier reads as `undefined`). -/
def gainsTable (threadCount : ℚ) : Tier → Option ℚ
  | .high => some (20 + threadCount * 2)
  | .medium => some (10 + threadCount)
  | .low => some (4 + threadCount * 0.5)
  | .unavailable => some 0
  | .unknown => none

/-- JavaScript `x || fb` on an optional rational: `undefined` and `0`
are falsy. -/
def jsOrQ (v : Option ℚ) (fb : ℚ) : ℚ :=
  match v with
  | none => fb
  | some x => if x = 0 then fb else x

/-- `estimatePerformanceGain`:
`Math.max(1, gains[performanceTier] || 0)`. -/
def estimatePerformanceGain (performanceTier : Tier) (threadCount : ℚ) : ℚ :=
  max 1 (jsOrQ (gainsTable threadCount performanceTier) 0)

/-- The `descriptions` lookup table of `getPerformanceDescription`
(four keys; an unlisted tier reads as `undefined`). -/
def descriptions (estimatedGain : ℚ) : Tier → Option String
  | .high => some s!"High-performance GPU detected. Estimated {estimatedGain}x speedup over CPU."
  | .medium => some s!"Mid-range GPU detected. Estimated {estimatedGain}x speedup over CPU."
  | .low => some s!"Low-end GPU detected. Estimated {estimatedGain}x speedup over CPU."
  | .unavailable => some "GPU acceleration not available. Using CPU-only mode."
  | .unknown => none

/-- `getPerformanceDescription`:
`descriptions[performanceTier] || descriptions.unavailable`. -/
def getPerformanceDescription (performanceTier : Tier) (estimatedGain : ℚ) : String :=
  match descriptions estimatedGain performanceTier with
  | some s => s
  | none => "GPU acceleration not available. Using CPU-only mode."

/-! ### Derived notions used to state the properties -/

/-- Rank of a tier in the order `high > medium > low > unknown`
(`unavailable` is outside the supported range and ranks lowest). -/
def tierRank : Tier → Nat
  | .high => 3
  | .medium => 2
  | .low => 1
  | .unknown => 0
  | .unavailable => 0

/-- The high-tier threshold conjunction of `getPerformanceTier`. -/
def highCond (l : Limits) : Bool :=
  limGe l.maxComputeInvocationsPerWorkgroup 1024 &&
  limGe l.maxComputeWorkgroupSizeX 1024 &&
  limGe l.maxStorageBufferBindingSize 134217728

/-- The medium-tier threshold conjunction of `getPerformanceTier`. -/
def medCond (l : Limits) : Bool :=
  limGe l.maxComputeInvocationsPerWorkgroup 512 &&
  limGe l.maxComputeWorkgroupSizeX 512 &&
  limGe l.maxStorageBufferBindingSize 67108864

/-- The four runtime families recognized by
`checkBrowserCompatibility`. -/
inductive Family where
  | chrome
  | firefox
  | safari
  | edge
deriving DecidableEq, Repr

/-- The family assigned to a user agent by the source's else-if chain
of substring tests (Chrome first, then Firefox, Safari, Edge). -/
def detectFamily (ua : List Char) : Option Family :=
  if containsSub ua "Chrome".toList then some .chrome
  else if containsSub ua "Firefox".toList then some .firefox
  else if containsSub ua "Safari".toList then some .safari
  else if containsSub ua "Edge".toList then some .edge
  else none

/-- The version pattern the source matches for each family. -/
def familyPattern : Family → List Char
  | .chrome => "Chrome/".toList
  | .firefox => "Firefox/".toList
  | .safari => "Version/".toList
  | .edge => "Edg/".toList

/-- The family's parsed version (`0` on parse failure) is below the
family's minimum: `113` for Chrome, Firefox and Edge, `16.4` for
Safari. -/
def familyTooOld (f : Family) (ua : List Char) : Bool :=
  let version := (findVersion ua (familyPattern f)).getD 0
  match f with
  | .safari => decide ((version : ℚ) < 16.4)
  | _ => decide (version < 113)

/-- The adapter request succeeds with an adapter handle. -/
def adapterOk : AdapterReq → Bool
  | .ok _ => true
  | _ => false

/-- The device request succeeds with a device handle. -/
def deviceOk : DeviceReq → Bool
  | .ok _ => true
  | _ => false

/-! ### Concrete records and environments for witnesses -/

/-- A supported record carrying the high-tier example limits. -/
def capsHighLimits : Capabilities :=
  { initialCapabilities with
      supported := true,
      limits := { maxComputeInvocationsPerWorkgroup := some 1024,
                  maxComputeWorkgroupSizeX := some 1024,
                  maxStorageBufferBindingSize := some 134217728 } }

/-- The same record with a reported `maxComputeWorkgroupsPerDimension`
of `0`. -/
def capsHighWpd0 : Capabilities :=
  { capsHighLimits with
      limits := { capsHighLimits.limits with maxComputeWorkgroupsPerDimension := some 0 } }

/-- An environment outside a secure context. -/
def envInsecure : Env :=
  { isSecureContext := false, userAgent := "TestAgent", hasGpu := false,
    requestAdapter := .nullAdapter, requestDevice := .nullDevice, shaderTest := .ok }

/-- A secure environment in which every acquisition step succeeds. -/
def envFull : Env :=
  { isSecureContext := true, userAgent := "TestAgent", hasGpu := true,
    requestAdapter := .ok {}, requestDevice := .ok {}, shaderTest := .ok }

/-- A secure environment whose shader smoke test throws. -/
def envShaderFail : Env :=
  { isSecureContext := true, userAgent := "TestAgent", hasGpu := true,
    requestAdapter := .ok {}, requestDevice := .ok {}, shaderTest := .throws "boom" }

/-- A capability record that holds a device. -/
def capsDev : Capabilities :=
  { initialCapabilities with available := true, supported := true, device := some {} }

/-! ### Helper lemmas -/

/-- `Math.max(1, x || 0)` equals `Math.max(1, x)` for a present value:
falling from `0` to the `|| 0` fallback does not change the floored
maximum. -/
lemma max1_jsOrQ (x : ℚ) : max 1 (jsOrQ (some x) 0) = max 1 x := by
  simp only [jsOrQ]
  by_cases h : x = 0 <;> simp [h]

/-- The compatibility check does not change `available`. -/
lemma checkBrowserCompatibility_available (ua : String) (caps : Capabilities) :
    (checkBrowserCompatibility ua caps).available = caps.available := by
  simp only [checkBrowserCompatibility, pushDiagnostic]
  split_ifs <;> rfl

/-- The compatibility check does not change `supported`. -/
lemma checkBrowserCompatibility_supported (ua : String) (caps : Capabilities) :
    (checkBrowserCompatibility ua caps).supported = caps.supported := by
  simp only [checkBrowserCompatibility, pushDiagnostic]
  split_ifs <;> rfl

/-- The compatibility check does not change the adapter field. -/
lemma checkBrowserCompatibility_adapter (ua : String) (caps : Capabilities) :
    (checkBrowserCompatibility ua caps).adapter = caps.adapter := by
  simp only [checkBrowserCompatibility, pushDiagnostic]
  split_ifs <;> rfl

/-- The compatibility check does not change the device field. -/
lemma checkBrowserCompatibility_device (ua : String) (caps : Capabilities) :
    (checkBrowserCompatibility ua caps).device = caps.device := by
  simp only [checkBrowserCompatibility, pushDiagnostic]
  split_ifs <;> rfl

/-- The compatibility check does not change `features`. -/
lemma checkBrowserCompatibility_features (ua : String) (caps : Capabilities) :
    (checkBrowserCompatibility ua caps).features = caps.features := by
  simp only [checkBrowserCompatibility, pushDiagnostic]
  split_ifs <;> rfl

/-- The compatibility check does not change `limits`. -/
lemma checkBrowserCompatibility_limits (ua : String) (caps : Capabilities) :
    (checkBrowserCompatibility ua caps).limits = caps.limits := by
  simp only [checkBrowserCompatibility, pushDiagnostic]
  split_ifs <;> rfl

/-- Tier rank is monotone under pointwise implications between the
truthiness of the invocations limit and the two threshold
conjunctions. -/
lemma tierRank_mono_aux (c1 c2 : Capabilities)
    (h1 : c1.supported = true) (h2 : c2.supported = true)
    (ht : truthyNat c1.limits.maxComputeInvocationsPerWorkgroup = true →
          truthyNat c2.limits.maxComputeInvocationsPerWorkgroup = true)
    (hh : highCond c1.limits = true → highCond c2.limits = true)
    (hm : medCond c1.limits = true → medCond c2.limits = true) :
    tierRank (getPerformanceTier c1) ≤ tierRank (getPerformanceTier c2) := by
  simp only [highCond, medCond] at hh hm
  simp only [getPerformanceTier, h1, h2, Bool.not_true, Bool.false_eq_true, if_false]
  split_ifs <;> simp_all [tierRank]

/-! ### The claims -/

/-- Claim C1, counterexample: `estimatePerformanceGain('unavailable', 4)`
returns `1`, not the `0` the claim states — the `Math.max(1, ...)`
floor applies to every tier, including `unavailable`. -/
theorem estimatePerformanceGain_unavailable_counterexample :
    estimatePerformanceGain .unavailable 4 = 1 ∧ (1 : ℚ) ≠ 0 := by
  constructor
  · simp only [estimatePerformanceGain, gainsTable, jsOrQ]
    norm_num
  · norm_num

/-- Claim C1, amended: for every concurrency hint `n` the gain is
`max(1, 20 + 2n)` for tier `high`, `max(1, 10 + n)` for `medium`,
`max(1, 4 + 0.5n)` for `low`, and exactly `1` (not `0`) for
`unavailable`; in particular the values at `n = 4` are `28`, `14`,
`6` and `1`. -/
theorem estimatePerformanceGain_amended :
    ∀ threadCount : ℚ,
      estimatePerformanceGain .high threadCount = max 1 (20 + 2 * threadCount) ∧
      estimatePerformanceGain .medium threadCount = max 1 (10 + threadCount) ∧
      estimatePerformanceGain .low threadCount = max 1 (4 + 0.5 * threadCount) ∧
      estimatePerformanceGain .unavailable threadCount = 1 ∧
      estimatePerformanceGain .high 4 = 28 ∧
      estimatePerformanceGain .medium 4 = 14 ∧
      estimatePerformanceGain .low 4 = 6 ∧
      estimatePerformanceGain .unavailable 4 = 1 := by
  intro n
  have e4 : estimatePerformanceGain .unavailable 4 = 1 := by
    simp only [estimatePerformanceGain, gainsTable, jsOrQ]
    norm_num
  refine ⟨?_, ?_, ?_, ?_, ?_, ?_, ?_, e4⟩
  · simp only [estimatePerformanceGain, gainsTable, max1_jsOrQ]
    ring_nf
  · simp only [estimatePerformanceGain, gainsTable, max1_jsOrQ]
  · simp only [estimatePerformanceGain, gainsTable, max1_jsOrQ]
    ring_nf
  · simp only [estimatePerformanceGain, gainsTable, jsOrQ]
    norm_num
  · simp only [estimatePerformanceGain, gainsTable, jsOrQ]
    norm_num
  · simp only [estimatePerformanceGain, gainsTable, jsOrQ]
    norm_num
  · simp only [estimatePerformanceGain, gainsTable, jsOrQ]
    norm_num

/-- Claim C2, counterexample: on an unsupported record the early
return of `getOptimizedGPUParameters` carries no `performanceTier`
field at all (it is `undefined`), so the result does not have
performance tier `'unavailable'` as the claim states. -/
theorem getOptimizedGPUParameters_unsupported_counterexample :
    initialCapabilities.supported = false ∧
    (getOptimizedGPUParameters initialCapabilities).performanceTier = none ∧
    (getOptimizedGPUParameters initialCapabilities).performanceTier ≠ some .unavailable := by
  refine ⟨rfl, rfl, by decide⟩

/-- Claim C2, amended: for every capability record with
`supported = false`, `getOptimizedGPUParameters` returns
`useGPU = false`, iteration count `256` and thread count `64`
regardless of any other record field; the result's `performanceTier`
field is absent (`undefined`), not `'unavailable'`. -/
theorem getOptimizedGPUParameters_unsupported_amended :
    ∀ caps : Capabilities, caps.supported = false →
      getOptimizedGPUParameters caps =
        { useGPU := false,
          reason := some "WebGPU not supported",
          performanceTier := none,
          optimizedNB_ITER := 256,
          optimizedNB_THREAD := 64,
          gpuInfo := none,
          limits := none } := by
  intro caps h
  simp [getOptimizedGPUParameters, h]

/-- Claim C2, witness: the amended statement evaluated on the fresh
(unsupported) record. -/
theorem getOptimizedGPUParameters_unsupported_witness :
    getOptimizedGPUParameters initialCapabilities =
      { useGPU := false,
        reason := some "WebGPU not supported",
        performanceTier := none,
        optimizedNB_ITER := 256,
        optimizedNB_THREAD := 64,
        gpuInfo := none,
        limits := none } :=
  getOptimizedGPUParameters_unsupported_amended initialCapabilities rfl

/-- Claim C3: the tier classifier returns `unavailable` exactly when
`supported` is false; for supported records it returns `unknown`
exactly when the invocations-per-workgroup limit is absent (i.e.
falsy: missing or zero); when that limit is present and non-zero it
returns `high` exactly when invocations ≥ 1024, sizeX ≥ 1024 and
storage-binding ≥ 134217728, `medium` exactly when the high rule
fails but invocations ≥ 512, sizeX ≥ 512 and storage-binding ≥
67108864, and otherwise `low`; the three concrete example limit sets
classify as `high`, `medium` and `low`. -/
theorem getPerformanceTier_spec :
    ∀ caps : Capabilities,
      (getPerformanceTier caps = .unavailable ↔ caps.supported = false) ∧
      (caps.supported = true →
        (getPerformanceTier caps = .unknown ↔
          (caps.limits.maxComputeInvocationsPerWorkgroup = none ∨
           caps.limits.maxComputeInvocationsPerWorkgroup = some 0))) ∧
      (caps.supported = true →
        caps.limits.maxComputeInvocationsPerWorkgroup ≠ none →
        caps.limits.maxComputeInvocationsPerWorkgroup ≠ some 0 →
        ((getPerformanceTier caps = .high ↔
           (1024 ≤ caps.limits.maxComputeInvocationsPerWorkgroup.getD 0 ∧
            1024 ≤ caps.limits.maxComputeWorkgroupSizeX.getD 0 ∧
            134217728 ≤ caps.limits.maxStorageBufferBindingSize.getD 0)) ∧
         (getPerformanceTier caps = .medium ↔
           (¬(1024 ≤ caps.limits.maxComputeInvocationsPerWorkgroup.getD 0 ∧
              1024 ≤ caps.limits.maxComputeWorkgroupSizeX.getD 0 ∧
              134217728 ≤ caps.limits.maxStorageBufferBindingSize.getD 0) ∧
            512 ≤ caps.limits.maxComputeInvocationsPerWorkgroup.getD 0 ∧
            512 ≤ caps.limits.maxComputeWorkgroupSizeX.getD 0 ∧
            67108864 ≤ caps.limits.maxStorageBufferBindingSize.getD 0)) ∧
         (¬(1024 ≤ caps.limits.maxComputeInvocationsPerWorkgroup.getD 0 ∧
            1024 ≤ caps.limits.maxComputeWorkgroupSizeX.getD 0 ∧
            134217728 ≤ caps.limits.maxStorageBufferBindingSize.getD 0) →
          ¬(512 ≤ caps.limits.maxComputeInvocationsPerWorkgroup.getD 0 ∧
            512 ≤ caps.limits.maxComputeWorkgroupSizeX.getD 0 ∧
            67108864 ≤ caps.limits.maxStorageBufferBindingSize.getD 0) →
          getPerformanceTier caps = .low))) ∧
      getPerformanceTier capsHighLimits = .high ∧
      getPerformanceTier
        { capsHighLimits with
            limits := { capsHighLimits.limits with
                          maxStorageBufferBindingSize := some 67108864 } } = .medium ∧
      getPerformanceTier
        { capsHighLimits with
            limits := { capsHighLimits.limits with
                          maxComputeInvocationsPerWorkgroup := some 100,
                          maxStorageBufferBindingSize := some 67108864 } } = .low := by
  intro caps
  refine ⟨?_, ?_, ?_, by decide, by decide, by decide⟩
  · cases hs : caps.supported
    · simp [getPerformanceTier, hs]
    · simp only [getPerformanceTier, hs, Bool.not_true, Bool.false_eq_true, if_false]
      split_ifs <;> simp
  · intro hs
    rcases hi : caps.limits.maxComputeInvocationsPerWorkgroup with _ | n
    · simp [getPerformanceTier, hs, truthyNat, hi]
    · by_cases hn : n = 0
      · simp [getPerformanceTier, hs, truthyNat, hi, hn]
      · simp only [getPerformanceTier, hs, Bool.not_true, Bool.false_eq_true, if_false,
          truthyNat, hi]
        split_ifs with h1 h2 h3 <;> simp_all
  · intro hs hne hn0
    rcases hi : caps.limits.maxComputeInvocationsPerWorkgroup with _ | n
    · exact absurd hi hne
    · rw [hi] at hn0
      have hn : n ≠ 0 := fun h => hn0 (by rw [h])
      simp only [getPerformanceTier, hs, Bool.not_true, Bool.false_eq_true, if_false,
        truthyNat, hi, limGe, hn]
      refine ⟨?_, ?_, ?_⟩ <;>
        rcases hx : caps.limits.maxComputeWorkgroupSizeX with _ | x <;>
        rcases hb : caps.limits.maxStorageBufferBindingSize with _ | b <;>
        split_ifs <;> simp_all

/-- Claim C3, witness: the high-tier rule applied to the concrete
high-tier example record. -/
theorem getPerformanceTier_spec_witness :
    getPerformanceTier capsHighLimits = .high :=
  ((getPerformanceTier_spec capsHighLimits).2.2.1 rfl (by decide) (by decide)).1.mpr
    ⟨by decide, by decide, by decide⟩

/-- Claim C4: the compatibility check (run on a record with no prior
errors, as in `runFullCheck`) records `BROWSER_VERSION_TOO_OLD` if and
only if the user agent matches a recognized family whose parsed
version is below that family's minimum (113 for Chrome, Firefox and
Edge, 16.4 for Safari), records `UNSUPPORTED_BROWSER` if and only if
no family is recognized, and a version that fails to parse counts as
`0` and trips the too-old branch; moreover the availability, adapter
and device outcomes of `runFullCheck` in a secure context are fully
determined by the non-user-agent environment, so the advisory never
prevents the subsequent checks. -/
theorem checkBrowserCompatibility_spec :
    ∀ (userAgent : String) (caps : Capabilities), caps.errors = [] →
      (("BROWSER_VERSION_TOO_OLD" ∈ (checkBrowserCompatibility userAgent caps).errors) ↔
        (∃ f, detectFamily userAgent.toList = some f ∧
          familyTooOld f userAgent.toList = true)) ∧
      (("UNSUPPORTED_BROWSER" ∈ (checkBrowserCompatibility userAgent caps).errors) ↔
        detectFamily userAgent.toList = none) ∧
      (∀ f, detectFamily userAgent.toList = some f →
        findVersion userAgent.toList (familyPattern f) = none →
        "BROWSER_VERSION_TOO_OLD" ∈ (checkBrowserCompatibility userAgent caps).errors) ∧
      (∀ env : Env, env.isSecureContext = true →
        ((runFullCheck env).available = env.hasGpu ∧
         (runFullCheck env).supported = (env.hasGpu && adapterOk env.requestAdapter) ∧
         (runFullCheck env).device.isSome =
           (env.hasGpu && adapterOk env.requestAdapter && deviceOk env.requestDevice))) := by
  intro ua caps h
  have hmain :
      ("BROWSER_VERSION_TOO_OLD" ∈ (checkBrowserCompatibility ua caps).errors) ↔
        (∃ f, detectFamily ua.toList = some f ∧ familyTooOld f ua.toList = true) := by
    simp only [checkBrowserCompatibility, detectFamily, pushDiagnostic, h]
    split_ifs with h1 h2 h3 h4 h5 h6 h7 h8 <;>
      simp_all [familyTooOld, familyPattern]
  refine ⟨hmain, ?_, ?_, ?_⟩
  · simp only [checkBrowserCompatibility, detectFamily, pushDiagnostic, h]
    split_ifs <;> simp_all
  · intro f hf hv
    refine hmain.mpr ⟨f, hf, ?_⟩
    cases f <;> simp_all [familyTooOld, familyPattern, String.toList]
    all_goals norm_num
  · intro env hsec
    obtain ⟨sec, ua2, gpu, areq, dreq, sreq⟩ := env
    simp only at hsec
    subst hsec
    cases gpu <;> cases areq <;> cases dreq <;> cases sreq <;>
      simp [runFullCheck, checkSecureContext, checkAvailability, checkAdapter, checkDevice,
        testComputeShader, pushDiagnostic, initialCapabilities, adapterOk, deviceOk,
        checkBrowserCompatibility_available, checkBrowserCompatibility_supported,
        checkBrowserCompatibility_adapter, checkBrowserCompatibility_device,
        checkBrowserCompatibility_features, checkBrowserCompatibility_limits]

/-- Claim C4, witness: a Chrome user agent below 113 gets the too-old
diagnostic. -/
theorem checkBrowserCompatibility_spec_witness :
    "BROWSER_VERSION_TOO_OLD" ∈ (checkBrowserCompatibility "Chrome/99" initialCapabilities).errors :=
  (checkBrowserCompatibility_spec "Chrome/99" initialCapabilities rfl).1.mpr
    ⟨.chrome, by decide, by decide⟩

/-- Claim C5: tier classification of a supported record is monotonic
in each of the three limits it reads — raising the
invocations-per-workgroup, workgroup-size-X or
storage-buffer-binding-size limit while holding the other two fixed
never strictly lowers the tier in the order
`high > medium > low > unknown`. -/
theorem getPerformanceTier_monotone :
    ∀ (caps : Capabilities) (v w : Nat), caps.supported = true → v ≤ w →
      (tierRank (getPerformanceTier
          { caps with limits :=
              { caps.limits with maxComputeInvocationsPerWorkgroup := some v } }) ≤
       tierRank (getPerformanceTier
          { caps with limits :=
              { caps.limits with maxComputeInvocationsPerWorkgroup := some w } })) ∧
      (tierRank (getPerformanceTier
          { caps with limits :=
              { caps.limits with maxComputeWorkgroupSizeX := some v } }) ≤
       tierRank (getPerformanceTier
          { caps with limits :=
              { caps.limits with maxComputeWorkgroupSizeX := some w } })) ∧
      (tierRank (getPerformanceTier
          { caps with limits :=
              { caps.limits with maxStorageBufferBindingSize := some v } }) ≤
       tierRank (getPerformanceTier
          { caps with limits :=
              { caps.limits with maxStorageBufferBindingSize := some w } })) := by
  intro caps v w hs hvw
  have hlim : ∀ c : Nat, limGe (some v) c = true → limGe (some w) c = true := by
    intro c
    simp only [limGe, decide_eq_true_eq]
    omega
  refine ⟨tierRank_mono_aux _ _ hs hs ?_ ?_ ?_,
          tierRank_mono_aux _ _ hs hs ?_ ?_ ?_,
          tierRank_mono_aux _ _ hs hs ?_ ?_ ?_⟩
  · intro h
    simp only [truthyNat] at h ⊢
    simp at h ⊢
    omega
  · intro h
    simp only [highCond, Bool.and_eq_true] at h ⊢
    exact ⟨⟨hlim _ h.1.1, h.1.2⟩, h.2⟩
  · intro h
    simp only [medCond, Bool.and_eq_true] at h ⊢
    exact ⟨⟨hlim _ h.1.1, h.1.2⟩, h.2⟩
  · intro h
    exact h
  · intro h
    simp only [highCond, Bool.and_eq_true] at h ⊢
    exact ⟨⟨h.1.1, hlim _ h.1.2⟩, h.2⟩
  · intro h
    simp only [medCond, Bool.and_eq_true] at h ⊢
    exact ⟨⟨h.1.1, hlim _ h.1.2⟩, h.2⟩
  · intro h
    exact h
  · intro h
    simp only [highCond, Bool.and_eq_true] at h ⊢
    exact ⟨h.1, hlim _ h.2⟩
  · intro h
    simp only [medCond, Bool.and_eq_true] at h ⊢
    exact ⟨h.1, hlim _ h.2⟩

/-- Claim C5, witness: raising the invocations limit of the high-tier
example record from 100 to 2048 does not lower the tier rank. -/
theorem getPerformanceTier_monotone_witness :
    tierRank (getPerformanceTier
      { capsHighLimits with limits :=
          { capsHighLimits.limits with maxComputeInvocationsPerWorkgroup := some 100 } }) ≤
    tierRank (getPerformanceTier
      { capsHighLimits with limits :=
          { capsHighLimits.limits with maxComputeInvocationsPerWorkgroup := some 2048 } }) :=
  (getPerformanceTier_monotone capsHighLimits 100 2048 rfl (by norm_num)).1

/-- Claim C6: every record returned by `runFullCheck` satisfies the
implication chain — a present device implies `supported`, and
`supported` implies `available`. -/
theorem runFullCheck_implication_chain :
    ∀ env : Env,
      ((runFullCheck env).device.isSome = true → (runFullCheck env).supported = true) ∧
      ((runFullCheck env).supported = true → (runFullCheck env).available = true) := by
  intro env
  obtain ⟨sec, ua, gpu, areq, dreq, sreq⟩ := env
  cases sec <;> cases gpu <;> cases areq <;> cases dreq <;> cases sreq <;>
    simp [runFullCheck, checkSecureContext, checkAvailability, checkAdapter, checkDevice,
      testComputeShader, pushDiagnostic, initialCapabilities,
      checkBrowserCompatibility_available, checkBrowserCompatibility_supported,
      checkBrowserCompatibility_adapter, checkBrowserCompatibility_device,
      checkBrowserCompatibility_features, checkBrowserCompatibility_limits]

/-- Claim C6, witness: the chain evaluated on a fully successful
environment, where the device is present. -/
theorem runFullCheck_implication_chain_witness :
    (runFullCheck envFull).supported = true ∧ (runFullCheck envFull).available = true :=
  ⟨(runFullCheck_implication_chain envFull).1 (by decide),
   (runFullCheck_implication_chain envFull).2
     ((runFullCheck_implication_chain envFull).1 (by decide))⟩

/-- Claim C7: outside a secure context `runFullCheck` short-circuits
with exactly the insecure-context diagnostic and error code, and no
availability, support, adapter, device, feature, limit or
performance-info data is populated. -/
theorem runFullCheck_insecure_context :
    ∀ env : Env, env.isSecureContext = false →
      (runFullCheck env).reasons =
        ["WebGPU requires a secure context (HTTPS, localhost, or file://)"] ∧
      (runFullCheck env).errors = ["INSECURE_CONTEXT"] ∧
      (runFullCheck env).available = false ∧
      (runFullCheck env).supported = false ∧
      (runFullCheck env).adapter = none ∧
      (runFullCheck env).device = none ∧
      (runFullCheck env).features = [] ∧
      (runFullCheck env).limits = {} ∧
      (runFullCheck env).performanceInfo = {} := by
  intro env h
  simp [runFullCheck, checkSecureContext, h, pushDiagnostic, initialCapabilities]

/-- Claim C7, witness: the insecure-context behaviour on a concrete
insecure environment. -/
theorem runFullCheck_insecure_context_witness :
    (runFullCheck envInsecure).reasons =
      ["WebGPU requires a secure context (HTTPS, localhost, or file://)"] ∧
    (runFullCheck envInsecure).errors = ["INSECURE_CONTEXT"] ∧
    (runFullCheck envInsecure).available = false ∧
    (runFullCheck envInsecure).supported = false ∧
    (runFullCheck envInsecure).adapter = none ∧
    (runFullCheck envInsecure).device = none ∧
    (runFullCheck envInsecure).features = [] ∧
    (runFullCheck envInsecure).limits = {} ∧
    (runFullCheck envInsecure).performanceInfo = {} :=
  runFullCheck_insecure_context envInsecure rfl

/-- Claim C8: for a supported record, each tier's tuning parameters
are the minimum of the tier cap and the limit-derived value, and a
derived value of zero — from an absent limit, a zero limit, or a
division that floors to zero — falls back to the cap; in particular a
reported `maxComputeWorkgroupsPerDimension` of `0` at tier `high`
yields iteration count `512`, not `0`. -/
theorem getOptimizedGPUParameters_tier_parameters :
    ∀ caps : Capabilities, caps.supported = true →
      (getPerformanceTier caps = .high →
        ((caps.limits.maxComputeWorkgroupsPerDimension = none →
           (getOptimizedGPUParameters caps).optimizedNB_ITER = 512) ∧
         (∀ n, caps.limits.maxComputeWorkgroupsPerDimension = some n → n / 2 = 0 →
           (getOptimizedGPUParameters caps).optimizedNB_ITER = 512) ∧
         (∀ n, caps.limits.maxComputeWorkgroupsPerDimension = some n → n / 2 ≠ 0 →
           (getOptimizedGPUParameters caps).optimizedNB_ITER = min 512 (n / 2)) ∧
         (caps.limits.maxComputeWorkgroupSizeX = none →
           (getOptimizedGPUParameters caps).optimizedNB_THREAD = 256) ∧
         (∀ n, caps.limits.maxComputeWorkgroupSizeX = some n → n = 0 →
           (getOptimizedGPUParameters caps).optimizedNB_THREAD = 256) ∧
         (∀ n, caps.limits.maxComputeWorkgroupSizeX = some n → n ≠ 0 →
           (getOptimizedGPUParameters caps).optimizedNB_THREAD = min 256 n))) ∧
      (getPerformanceTier caps = .medium →
        ((caps.limits.maxComputeWorkgroupsPerDimension = none →
           (getOptimizedGPUParameters caps).optimizedNB_ITER = 384) ∧
         (∀ n, caps.limits.maxComputeWorkgroupsPerDimension = some n → n / 3 = 0 →
           (getOptimizedGPUParameters caps).optimizedNB_ITER = 384) ∧
         (∀ n, caps.limits.maxComputeWorkgroupsPerDimension = some n → n / 3 ≠ 0 →
           (getOptimizedGPUParameters caps).optimizedNB_ITER = min 384 (n / 3)) ∧
         (caps.limits.maxComputeWorkgroupSizeX = none →
           (getOptimizedGPUParameters caps).optimizedNB_THREAD = 128) ∧
         (∀ n, caps.limits.maxComputeWorkgroupSizeX = some n → n = 0 →
           (getOptimizedGPUParameters caps).optimizedNB_THREAD = 128) ∧
         (∀ n, caps.limits.maxComputeWorkgroupSizeX = some n → n ≠ 0 →
           (getOptimizedGPUParameters caps).optimizedNB_THREAD = min 128 n))) ∧
      (getPerformanceTier caps = .low →
        ((caps.limits.maxComputeWorkgroupsPerDimension = none →
           (getOptimizedGPUParameters caps).optimizedNB_ITER = 256) ∧
         (∀ n, caps.limits.maxComputeWorkgroupsPerDimension = some n → n / 4 = 0 →
           (getOptimizedGPUParameters caps).optimizedNB_ITER = 256) ∧
         (∀ n, caps.limits.maxComputeWorkgroupsPerDimension = some n → n / 4 ≠ 0 →
           (getOptimizedGPUParameters caps).optimizedNB_ITER = min 256 (n / 4)) ∧
         (caps.limits.maxComputeWorkgroupSizeX = none →
           (getOptimizedGPUParameters caps).optimizedNB_THREAD = 64) ∧
         (∀ n, caps.limits.maxComputeWorkgroupSizeX = some n → n = 0 →
           (getOptimizedGPUParameters caps).optimizedNB_THREAD = 64) ∧
         (∀ n, caps.limits.maxComputeWorkgroupSizeX = some n → n ≠ 0 →
           (getOptimizedGPUParameters caps).optimizedNB_THREAD = min 64 n))) ∧
      (getPerformanceTier caps = .high →
        caps.limits.maxComputeWorkgroupsPerDimension = some 0 →
        (getOptimizedGPUParameters caps).optimizedNB_ITER = 512) := by
  intro caps hs
  refine ⟨?_, ?_, ?_, ?_⟩
  · intro ht
    refine ⟨?_, ?_, ?_, ?_, ?_, ?_⟩ <;>
      first
        | (intro h
           simp [getOptimizedGPUParameters, hs, ht, jsOrNat, h])
        | (intro n h hn
           simp [getOptimizedGPUParameters, hs, ht, jsOrNat, h, hn])
  · intro ht
    refine ⟨?_, ?_, ?_, ?_, ?_, ?_⟩ <;>
      first
        | (intro h
           simp [getOptimizedGPUParameters, hs, ht, jsOrNat, h])
        | (intro n h hn
           simp [getOptimizedGPUParameters, hs, ht, jsOrNat, h, hn])
  · intro ht
    refine ⟨?_, ?_, ?_, ?_, ?_, ?_⟩ <;>
      first
        | (intro h
           simp [getOptimizedGPUParameters, hs, ht, jsOrNat, h])
        | (intro n h hn
           simp [getOptimizedGPUParameters, hs, ht, jsOrNat, h, hn])
  · intro ht h
    simp [getOptimizedGPUParameters, hs, ht, jsOrNat, h]

/-- Claim C8, witness: the zero workgroups-per-dimension fallback on
the concrete high-tier record. -/
theorem getOptimizedGPUParameters_tier_parameters_witness :
    (getOptimizedGPUParameters capsHighWpd0).optimizedNB_ITER = 512 :=
  (getOptimizedGPUParameters_tier_parameters capsHighWpd0 rfl).2.2.2 (by decide) rfl

/-- Claim C9: when a device is present, a failing shader smoke test
appends its diagnostic reason and `SHADER_COMPILATION_FAILED` and
changes nothing else in the record (neither `supported`, the device,
the features nor the limits), while a successful test appends only
the informational reason and no error. -/
theorem testComputeShader_effect :
    ∀ (env : Env) (caps : Capabilities) (d : Device) (msg : String),
      caps.device = some d →
      (env.shaderTest = .throws msg →
        testComputeShader env caps =
          { caps with
              reasons := caps.reasons ++ [s!"Compute shader test failed: {msg}"],
              errors := caps.errors ++ ["SHADER_COMPILATION_FAILED"] }) ∧
      (env.shaderTest = .ok →
        testComputeShader env caps =
          { caps with
              reasons := caps.reasons ++ ["Basic compute shader compilation successful"] }) := by
  intro env caps d msg hd
  constructor <;> intro hs <;> simp [testComputeShader, hd, hs, pushDiagnostic]

/-- Claim C9, witness: the failure case evaluated on a concrete record
holding a device. -/
theorem testComputeShader_effect_witness :
    testComputeShader envShaderFail capsDev =
      { capsDev with
          reasons := capsDev.reasons ++ ["Compute shader test failed: boom"],
          errors := capsDev.errors ++ ["SHADER_COMPILATION_FAILED"] } :=
  (testComputeShader_effect envShaderFail capsDev {} "boom" rfl).1 rfl

/-- Claim C10: for a tier outside the four keyed templates (the only
such tier value is `unknown`) `getPerformanceDescription` returns the
fixed unavailable-mode string independent of the supplied gain, and
for the three known GPU tiers it interpolates the supplied estimated
gain into the tier's template. -/
theorem getPerformanceDescription_spec :
    ∀ estimatedGain : ℚ,
      getPerformanceDescription .unknown estimatedGain =
        "GPU acceleration not available. Using CPU-only mode." ∧
      getPerformanceDescription .unavailable estimatedGain =
        "GPU acceleration not available. Using CPU-only mode." ∧
      getPerformanceDescription .high estimatedGain =
        "High-performance GPU detected. Estimated " ++ toString estimatedGain ++
          "x speedup over CPU." ∧
      getPerformanceDescription .medium estimatedGain =
        "Mid-range GPU detected. Estimated " ++ toString estimatedGain ++
          "x speedup over CPU." ∧
      getPerformanceDescription .low estimatedGain =
        "Low-end GPU detected. Estimated " ++ toString estimatedGain ++
          "x speedup over CPU." := by
  intro g
  exact ⟨rfl, rfl, rfl, rfl, rfl⟩

end VanityEth
